import Mathlib

/-!
Shallow embedding of the novajoin directory-client subsystem
(`novajoin/ipa.py`, `novajoin/hooks.py`, `novajoin/join.py`,
`novajoin/util.py`, `novajoin/notifications.py`) together with theorems
settling the frozen claims about it.

Python strings are modelled as Lean `String` (and, where general lemmas
about `str.split` are needed, as `List Char`).  Python `None`-able
values are `Option`; raised exceptions are the `error` case of `Except`.
Remote RPC traffic is made observable by returning, next to each
function's result, the list of remote calls the function performed.
-/

namespace Novajoin

/-- A Python value as it appears in the argument lists of the IPA RPC
calls made by `novajoin/ipa.py`: strings, booleans, tuples of strings
(`{'host': (host,)}`), and the one-key DNS-name dicts
(`{"__dns_name__": s}`). -/
inductive Value where
  | str (s : String)
  | bool (b : Bool)
  | strTuple (ss : List String)
  | dnsName (s : String)
deriving DecidableEq, Repr

/-- One IPA command: a method name, positional parameters in order, and
keyword parameters.  This is both the shape of a single `_call_ipa`
invocation and the shape of one queued batch entry
`{"method": command, "params": [args, kw]}` built by
`_add_batch_operation` (ipa.py lines 175-180). -/
structure IpaCommand where
  method : String
  args : List Value
  kw : List (String × Value)
deriving DecidableEq, Repr

/-- A remote call observed on the wire: either a single IPA command
(`_call_ipa(command, *args, **kw)`) or the combined `'batch'` command
whose positional arguments are the queued entries
(`_call_ipa('batch', *self.batch_args, **kw)`). -/
inductive RemoteCall where
  | single (c : IpaCommand)
  | batch (entries : List IpaCommand) (kw : List (String × Value))
deriving DecidableEq, Repr

/-- The ipalib exception classes that the novajoin code distinguishes
(`ipalib.errors` plus the network error). -/
inductive IpaErr where
  | notFound
  | duplicateEntry
  | validationError
  | dnsNotARecordError
  | aciError
  | networkError
  | otherError
deriving DecidableEq, Repr

/-! ## Batch Accumulator (`IPANovaJoinBase`, ipa.py lines 166-191)

The accumulator state is `self.batch_args : List IpaCommand`. -/

/-- Model of `start_batch_operation` (ipa.py line 166): `self.batch_args = list()`. -/
def startBatchOperation : List IpaCommand := []

/-- Model of `_add_batch_operation` (ipa.py line 175): appends
`{"method": command, "params": [args, kw]}` to `self.batch_args`. -/
def addBatchOperation (batchArgs : List IpaCommand) (command : String)
    (args : List Value) (kw : List (String × Value)) : List IpaCommand :=
  batchArgs ++ [⟨command, args, kw⟩]

/-- The keyword arguments `_call_ipa` sends when the caller supplied
none: `kw['version'] = u'2.146'` (ipa.py lines 197-198). -/
def versionKw : List (String × Value) := [("version", Value.str "2.146")]

/-- Model of `flush_batch_operation` (ipa.py lines 182-191).  If the queue is
falsy (empty) it returns `None` with no remote call; otherwise it
issues `_call_ipa('batch', *self.batch_args, **{})` — exactly one
remote call whose positional arguments are the queued commands in
order.  `outcome` is the result of that one invocation (its value on
success, or the exception it raised).  The triple returned is
(result, remote calls made, batch queue afterwards); note the source
never mutates `self.batch_args` here, so the queue member is returned
unchanged on every path. -/
def flushBatchOperation (batchArgs : List IpaCommand)
    (outcome : Except IpaErr Nat) :
    Except IpaErr (Option Nat) × List RemoteCall × List IpaCommand :=
  if batchArgs.isEmpty then
    (.ok none, [], batchArgs)
  else
    match outcome with
    | .ok r => (.ok (some r), [.batch batchArgs versionKw], batchArgs)
    | .error e => (.error e, [.batch batchArgs versionKw], batchArgs)

/-- A batch built by `start_batch_operation()` followed by one
`_add_batch_operation` per element of `cmds`, in order. -/
def buildBatch (cmds : List (String × List Value × List (String × Value))) :
    List IpaCommand :=
  cmds.foldl (fun s c => addBatchOperation s c.1 c.2.1 c.2.2) startBatchOperation

/-- The queued entry corresponding to one `_add_batch_operation` call. -/
def entryOf (c : String × List Value × List (String × Value)) : IpaCommand :=
  ⟨c.1, c.2.1, c.2.2⟩

theorem buildBatch_append (s : List IpaCommand)
    (cmds : List (String × List Value × List (String × Value))) :
    cmds.foldl (fun s c => addBatchOperation s c.1 c.2.1 c.2.2) s =
      s ++ cmds.map entryOf := by
  induction cmds generalizing s with
  | nil => simp
  | cons c rest ih =>
    rw [List.foldl_cons, ih]
    simp [addBatchOperation, entryOf]

theorem buildBatch_eq (cmds : List (String × List Value × List (String × Value))) :
    buildBatch cmds = cmds.map entryOf := by
  simpa [buildBatch, startBatchOperation] using buildBatch_append [] cmds

/-! ## Backoff (`IPANovaJoinBase.__backoff`, ipa.py lines 124-128) -/

/-- One `__backoff()` call: sleeps `self.backoff` seconds and then
doubles `self.backoff` if it is below 1024 (ipa.py lines 124-128).
`stepBackoff` returns the new value of `self.backoff`; the delay slept
is the value before the call. -/
def stepBackoff (b : Nat) : Nat :=
  if b < 1024 then b * 2 else b

/-- The value of `self.backoff` after `k` completed `__backoff()` calls
starting from an initial delay `d`; the delay applied (slept) on the
failure following those `k` calls is exactly this value. -/
def backoffIter (d : Nat) : Nat → Nat
  | 0 => d
  | k + 1 => stepBackoff (backoffIter d k)

/-! ## Python `str.split(sep)` for a one-character separator

`pySplitC c l` is Python's `s.split(c)`: it always returns at least one
piece, adjacent separators yield empty pieces, and the concatenation of
the pieces interleaved with `c` is the input. -/

def pySplitC (c : Char) : List Char → List (List Char)
  | [] => [[]]
  | x :: xs =>
    let r := pySplitC c xs
    if x = c then [] :: r
    else
      match r with
      | [] => [[x]]
      | y :: ys => (x :: y) :: ys

theorem pySplitC_ne_nil (c : Char) (l : List Char) : pySplitC c l ≠ [] := by
  cases l with
  | nil => simp [pySplitC]
  | cons x xs =>
    simp only [pySplitC]
    split
    · simp
    · match h : pySplitC c xs with
      | [] => simp
      | y :: ys => simp

theorem pySplitC_no_sep (c : Char) (l : List Char) (h : c ∉ l) :
    pySplitC c l = [l] := by
  induction l with
  | nil => rfl
  | cons x xs ih =>
    simp only [List.mem_cons, not_or] at h
    have hx : ¬ x = c := fun he => h.1 he.symm
    simp only [pySplitC, ih h.2, if_neg hx]

theorem pySplitC_append_sep (c : Char) (s t : List Char) (h : c ∉ s) :
    pySplitC c (s ++ c :: t) = s :: pySplitC c t := by
  induction s with
  | nil => simp [pySplitC]
  | cons x xs ih =>
    simp only [List.mem_cons, not_or] at h
    have hx : ¬ x = c := fun he => h.1 he.symm
    simp only [List.cons_append, List.append_eq, pySplitC, ih h.2, if_neg hx]

theorem pySplitC_length (c : Char) (l : List Char) :
    (pySplitC c l).length = l.count c + 1 := by
  induction l with
  | nil => rfl
  | cons x xs ih =>
    simp only [pySplitC]
    split
    · next hx =>
      simp [List.count_cons, hx, ih]
    · next hx =>
      match h : pySplitC c xs with
      | [] => exact absurd h (pySplitC_ne_nil c xs)
      | y :: ys =>
        rw [h] at ih
        simp only [List.length_cons] at ih ⊢
        have : (x == c) = false := by simpa using hx
        simp [List.count_cons, this, ih]

/-- Python `str.lower()` (ASCII case mapping, as in the metadata
values the code compares). -/
def pyLower (s : String) : String := (s.toList.map Char.toLower).asString

/-- Python `str.strip()` for the strings built by `add_host`
(`'%s %s' % (osdistro, osver)`), whose only strippable whitespace is
the space character. -/
def pyStrip (s : String) : String :=
  (((s.toList.dropWhile (fun c => c = ' ')).reverse.dropWhile
    (fun c => c = ' ')).reverse).asString

/-! ## `split_principal` (`IPANovaJoinBase.split_principal`, ipa.py lines 70-98) -/

/-- The exceptions `split_principal` can raise:
`errors.MalformedServicePrincipal(reason=...)` and
`errors.RealmMismatch()`. -/
inductive PrincipalError where
  | malformed (reason : String)
  | realmMismatch
deriving DecidableEq, Repr

/-- Model of `split_principal(principal)` (ipa.py lines 70-98), over `List Char`
strings.  `envRealm` is `api.env.realm`.  Splits on `'/'` (must give
exactly two pieces, the first non-empty), splits the second piece on
`'@'` (at most two pieces), lower-cases the hostname, upper-cases the
realm and requires it to equal the configured realm; with no `'@'` the
configured realm is used. -/
def splitPrincipal (envRealm : List Char) (principal : List Char) :
    Except PrincipalError (List Char × List Char × List Char) :=
  let sp := pySplitC '/' principal
  if sp.length ≠ 2 then
    .error (.malformed "missing service")
  else
    let service := sp.headD []
    if service.length = 0 then
      .error (.malformed "blank service")
    else
      let sr := pySplitC '@' (sp.getD 1 [])
      if sr.length > 2 then
        .error (.malformed "unable to determine realm")
      else
        let hostname := (sr.headD []).map Char.toLower
        if sr.length = 2 then
          let realm := (sr.getD 1 []).map Char.toUpper
          if realm ≠ envRealm then
            .error .realmMismatch
          else
            .ok (service, hostname, realm)
        else
          .ok (service, hostname, envRealm)

/-! ## Error translation (`novajoin/hooks.py` lines 84-123 and 200-215) -/

/-- The exception classes of hooks.py that error translation can
produce or that `_call_and_handle_error` can raise. -/
inductive HookExc where
  | IPAUnknownError
  | IPACommunicationFailure
  | IPAInvalidData
  | IPADuplicateEntry
  | IPAAuthError
deriving DecidableEq, Repr

/-- The error code constants of hooks.py lines 84-88. -/
def IPA_INVALID_DATA : Nat := 3009
def IPA_NOT_FOUND : Nat := 4001
def IPA_DUPLICATE : Nat := 4002
def IPA_NO_DNS_RECORD : Nat := 4019
def IPA_NO_CHANGES : Nat := 4202

/-- The static table `ipaerror2exception` (hooks.py lines 107-123):
outer key the numeric error code, inner key the object type, inner
value either a concrete exception class or `None` (= ignore). -/
def ipaerror2exception : List (Nat × List (String × Option HookExc)) :=
  [(IPA_INVALID_DATA,
      [("host", some .IPAInvalidData), ("dnsrecord", some .IPAInvalidData)]),
   (IPA_NO_CHANGES, [("host", none), ("dnsrecord", none)]),
   (IPA_NO_DNS_RECORD, [("host", none)]),
   (IPA_DUPLICATE,
      [("host", some .IPADuplicateEntry), ("dnsrecord", some .IPADuplicateEntry)])]

/-- Model of `method.split('_')[0]` (hooks.py line 206): the object type derived
from the RPC verb. -/
def methtype (method : String) : String :=
  ((pySplitC '_' method.toList).headD []).asString

/-- Model of `_ipa_error_to_exception(resp, ipareq)` (hooks.py lines 200-215).
`errorCode` is `resp['error']['code']` when `resp['error']` is not
`None` (the only field of the error object the code reads).  Returns
the exception class `_call_and_handle_error` will raise, or `none` when
the exception slot is falsy (error `None`, or an ignore entry):
`ipaerror2exception.get(errcode, {}).get(methtype, IPAUnknownError)`. -/
def ipaErrorToException (errorCode : Option Nat) (method : String) :
    Option HookExc :=
  match errorCode with
  | none => none
  | some errcode =>
    (((ipaerror2exception.lookup errcode).getD []).lookup (methtype method)).getD
      (some .IPAUnknownError)

/-! ## The hook-variant retry loop
(`IPANovaHookBase._call_and_handle_error`, hooks.py lines 217-245)

Each iteration of the `while True` loop either raises `IPAAuthError`
during re-authentication (handled as status 401, no request reaches the
server) or posts the request and observes an HTTP status.  `oracle i`
is the outcome of iteration `i`.  On status 401 with `self.ntries == 0`
the loop resets `self.ntries` and raises `IPACommunicationFailure`;
on 401 otherwise it decrements `self.ntries`, sleeps one second
(untracked) and retries; on any other status it breaks out. -/

/-- The observable outcome of one iteration of the
`_call_and_handle_error` loop. -/
inductive PostOutcome where
  | authFail
  | status (code : Nat)
deriving DecidableEq, Repr

/-- The `status_code` variable at the end of the try/except block:
401 when `IPAAuthError` was raised, otherwise the response's status. -/
def statusOf : PostOutcome → Nat
  | .authFail => 401
  | .status code => code

/-- The retry loop of `_call_and_handle_error` (hooks.py lines
219-245), returning the index of the iteration that broke out of the
loop (the attempt whose response is then processed), or the raised
`IPACommunicationFailure`.  `ntries` is the current value of
`self.ntries` (initially `CONF.connect_retries`). -/
def connectRetriesLoop (oracle : Nat → PostOutcome) :
    Nat → Nat → Except HookExc Nat
  | ntries, i =>
    if statusOf (oracle i) = 401 then
      match ntries with
      | 0 => .error .IPACommunicationFailure
      | n + 1 => connectRetriesLoop oracle n (i + 1)
    else .ok i

/-- Model of `_call_and_handle_error(ipareq)` (hooks.py lines 217-257): run the
retry loop with `self.ntries = budget`, then translate the error of the
response of the successful attempt (`errorOf i`, already JSON-decoded)
and raise the translated class if truthy.  Returns the index of the
attempt whose response was returned. -/
def callAndHandleError (oracle : Nat → PostOutcome) (budget : Nat)
    (errorOf : Nat → Option Nat) (method : String) : Except HookExc Nat :=
  match connectRetriesLoop oracle budget 0 with
  | .error e => .error e
  | .ok i =>
    match ipaErrorToException (errorOf i) method with
    | some exc => .error exc
    | none => .ok i

/-- An oracle whose first `n` iterations fail with a credential
(`IPAAuthError`) failure and which succeeds with HTTP 200 afterwards. -/
def failThenOk (n : Nat) : Nat → PostOutcome :=
  fun i => if i < n then .authFail else .status 200

/-- An oracle for which every attempt fails with a credential error. -/
def everAuthFail : Nat → PostOutcome := fun _ => .authFail

/-! ## The service-variant reconnect loop
(`IPANovaJoinBase.__get_connection`, ipa.py lines 130-164, and
`IPANovaJoinBase._call_ipa`, ipa.py lines 193-214) -/

/-- The outcome of one connect-and-ping attempt inside
`__get_connection`, or of one `api.Command[command](...)` execution
inside `_call_ipa`. -/
inductive IpaAttemptOutcome where
  | ok
  | credFail
  | netFail
deriving DecidableEq, Repr

/-- One pass of the `while (tries <= self.ntries) or (self.backoff > 0)`
loop of `__get_connection` (ipa.py lines 130-164), run with `fuel`
iterations of budget.  State: `tries`, the oracle index `i` (the number
of connect attempts made so far across the session) and `self.backoff`.
On a credential failure the code re-kinits (failures ignored), backs
off when `tries > 0` and backoff is active, and increments `tries`; on
a network failure it increments `tries` and backs off when backoff is
active; on success it returns.  Falling out of the loop returns `None`
without raising.  Result: `none` when `fuel` iterations did not make
the loop exit, otherwise `some (connected, i, backoff)` where
`connected` tells whether the loop exited via success (`return`) or by
the guard going false. -/
def getConnectionFuel (oracle : Nat → IpaAttemptOutcome) (ntries : Nat) :
    Nat → Nat → Nat → Nat → Option (Bool × Nat × Nat)
  | 0, _, _, _ => none
  | fuel + 1, tries, i, b =>
    if tries ≤ ntries ∨ 0 < b then
      match oracle i with
      | .ok => some (true, i + 1, b)
      | .credFail =>
        getConnectionFuel oracle ntries fuel (tries + 1) (i + 1)
          (if 0 < tries ∧ 0 < b then stepBackoff b else b)
      | .netFail =>
        getConnectionFuel oracle ntries fuel (tries + 1) (i + 1)
          (if 0 < b then stepBackoff b else b)
    else some (false, i, b)

/-- Statement that `__get_connection` never exits its reconnect loop: no amount of
fuel makes `getConnectionFuel` return. -/
def getConnectionDiverges (oracle : Nat → IpaAttemptOutcome)
    (ntries tries i b : Nat) : Prop :=
  ∀ fuel, getConnectionFuel oracle ntries fuel tries i b = none

/-- The `while True` command-dispatch loop of `_call_ipa` (ipa.py lines
200-214).  `oracle i` is the outcome of the `i`-th
`api.Command[command](...)` execution.  On a credential error the code
calls `self.__get_connection()` (which never raises; its only effect on
the loop state is on `self.backoff`, abstracted as `reconnectBackoff`)
and retries; on a network error it backs off and retries when
`self.backoff` is active and re-raises otherwise; on success it
returns.  `fuel` bounds the number of loop iterations; `none` means the
loop is still running after `fuel` iterations. -/
def callIpaFuel (oracle : Nat → IpaAttemptOutcome)
    (reconnectBackoff : Nat → Nat) :
    Nat → Nat → Nat → Option (Except IpaErr Unit)
  | 0, _, _ => none
  | fuel + 1, i, b =>
    match oracle i with
    | .ok => some (.ok ())
    | .credFail => callIpaFuel oracle reconnectBackoff fuel (i + 1) (reconnectBackoff b)
    | .netFail =>
      if 0 < b then callIpaFuel oracle reconnectBackoff fuel (i + 1) (stepBackoff b)
      else some (.error .networkError)

/-- An oracle for which every connect attempt / command execution fails
with a credential (ticket/ccache) error. -/
def everCredFail : Nat → IpaAttemptOutcome := fun _ => .credFail

/-! ## `IPAClient` operations (ipa.py lines 227-464)

Each operation returns its Python result together with the list of
remote calls it performed through `_call_ipa`.  The outcome of each
`_call_ipa` invocation is passed in as an `Except IpaErr Unit`
parameter (the oracle for the remote side); batched operations only
append to the queue and perform no remote call themselves. -/

/-- The outcome the remote side gives one `_call_ipa` invocation. -/
abbrev CallOutcome := Except IpaErr Unit

/-- The keyword arguments `hostargs` built by `add_host` (ipa.py lines
258-270) from the instance metadata and image metadata. -/
def addHostArgs (otp : String) (metadata imageMetadata : List (String × String)) :
    List (String × Value) :=
  let hostclass := (metadata.lookup "ipa_hostclass").getD ""
  let location := (metadata.lookup "ipa_host_location").getD ""
  let osdistro := (imageMetadata.lookup "os_distro").getD ""
  let osver := (imageMetadata.lookup "os_version").getD ""
  [("description", Value.str "IPA host for OpenStack"),
   ("userpassword", Value.str otp),
   ("force", Value.bool true)]
  ++ (if hostclass ≠ "" then [("userclass", Value.str hostclass)] else [])
  ++ (if osdistro ≠ "" ∨ osver ≠ "" then
        [("nsosversion", Value.str (pyStrip (osdistro ++ " " ++ osver)))] else [])
  ++ (if location ≠ "" then [("nshostlocation", Value.str location)] else [])

/-- Model of `IPAClient.add_host(hostname, ipaotp, metadata, image_metadata)`
(ipa.py lines 229-292).  Returns `False` with no remote call when the
client is not configured.  Otherwise it first issues
`host_mod(hostname, userpassword=otp)`; on success returns `True`; on
`NotFound` it issues `host_add(hostname, **hostargs)` and swallows
`DuplicateEntry`, `ValidationError` and `DNSNotARecordError` there,
returning `True`; a `ValidationError` from `host_mod` returns `False`;
any other exception propagates. -/
def addHost (configured : Bool) (hostname otp : String)
    (metadata imageMetadata : List (String × String))
    (hostMod hostAdd : CallOutcome) : Except IpaErr Bool × List RemoteCall :=
  if !configured then (.ok false, [])
  else
    let modCall := RemoteCall.single
      ⟨"host_mod", [.str hostname],
        [("userpassword", Value.str otp)] ++ versionKw⟩
    let addCall := RemoteCall.single
      ⟨"host_add", [.str hostname],
        addHostArgs otp metadata imageMetadata ++ versionKw⟩
    match hostMod with
    | .ok _ => (.ok true, [modCall])
    | .error .notFound =>
      match hostAdd with
      | .ok _ => (.ok true, [modCall, addCall])
      | .error .duplicateEntry => (.ok true, [modCall, addCall])
      | .error .validationError => (.ok true, [modCall, addCall])
      | .error .dnsNotARecordError => (.ok true, [modCall, addCall])
      | .error e => (.error e, [modCall, addCall])
    | .error .validationError => (.ok false, [modCall])
    | .error e => (.error e, [modCall])

/-- Model of `IPAClient.add_subhost(hostname)` (ipa.py lines 294-304): queues
`host_add(hostname, force=True)` on the batch; no remote call. -/
def addSubhost (batchArgs : List IpaCommand) (hostname : String) :
    List IpaCommand :=
  addBatchOperation batchArgs "host_add" [.str hostname] [("force", .bool true)]

/-- Model of `IPAClient.add_service(principal)` (ipa.py lines 374-378): queues
`service_add(principal, force=True)` on the batch; no remote call. -/
def addService (batchArgs : List IpaCommand) (principal : String) :
    List IpaCommand :=
  addBatchOperation batchArgs "service_add" [.str principal] [("force", .bool true)]

/-- Model of `IPAClient.service_add_host(service_principal, host)` (ipa.py lines
380-394): queues `service_add_host(principal, host=(host,))` on the
batch; no remote call. -/
def serviceAddHost (batchArgs : List IpaCommand) (principal host : String) :
    List IpaCommand :=
  addBatchOperation batchArgs "service_add_host" [.str principal]
    [("host", .strTuple [host])]

/-- Model of `split_hostname(hostname)` (ipa.py lines 100-104):
`parts = hostname.split('.')`, host = `parts[0]`, domain =
`'.'.join(parts[1:]) + '.'`. -/
def splitHostname (hostname : String) : String × String :=
  let parts := (pySplitC '.' hostname.toList).map List.asString
  (parts.headD "", String.intercalate "." parts.tail ++ ".")

/-- Model of `IPAClient.delete_host(hostname, metadata)` (ipa.py lines 337-372).
Returns `None` with no remote call when the client is not configured;
otherwise issues `host_del(hostname, updatedns=False)` swallowing
`NotFound`/`ACIError`, then `dnsrecord_del(domain, host, del_all=True)`
swallowing `NotFound`/`ACIError`; any other exception propagates. -/
def deleteHost (configured : Bool) (hostname : String)
    (hostDel dnsDel : CallOutcome) : Except IpaErr Unit × List RemoteCall :=
  if !configured then (.ok (), [])
  else
    let delCall := RemoteCall.single
      ⟨"host_del", [.str hostname], [("updatedns", .bool false)] ++ versionKw⟩
    let (hn, domain) := splitHostname hostname
    let dnsCall := RemoteCall.single
      ⟨"dnsrecord_del", [.str domain, .str hn],
        [("del_all", .bool true)] ++ versionKw⟩
    let afterDel : Except IpaErr Unit :=
      match hostDel with
      | .ok _ => .ok ()
      | .error .notFound => .ok ()
      | .error .aciError => .ok ()
      | .error e => .error e
    match afterDel with
    | .error e => (.error e, [delCall])
    | .ok _ =>
      match dnsDel with
      | .ok _ => (.ok (), [delCall, dnsCall])
      | .error .notFound => (.ok (), [delCall, dnsCall])
      | .error .aciError => (.ok (), [delCall, dnsCall])
      | .error e => (.error e, [delCall, dnsCall])

/-- Model of `IPAClient.add_ip(hostname, floating_ip)` (ipa.py lines 438-453).
Returns `None` with no remote call when the client is not configured;
otherwise issues
`dnsrecord_add({"__dns_name__": domain+"."}, {"__dns_name__": hostname},
a_part_ip_address=floating_ip)` and swallows
`DuplicateEntry`/`ValidationError`. -/
def addIp (configured : Bool) (domain hostname floatingIp : String)
    (outcome : CallOutcome) : Except IpaErr Unit × List RemoteCall :=
  if !configured then (.ok (), [])
  else
    let call := RemoteCall.single
      ⟨"dnsrecord_add", [.dnsName (domain ++ "."), .dnsName hostname],
        [("a_part_ip_address", .str floatingIp)] ++ versionKw⟩
    match outcome with
    | .ok _ => (.ok (), [call])
    | .error .duplicateEntry => (.ok (), [call])
    | .error .validationError => (.ok (), [call])
    | .error e => (.error e, [call])

/-- Model of `IPAClient.remove_ip(hostname, floating_ip)` (ipa.py lines
455-463).  When the client is not configured it logs and returns
`None`; when configured it logs "Current a no-op" and returns `None`.
Neither path performs any remote call. -/
def removeIp (configured : Bool) (hostname floatingIp : String) :
    Unit × List RemoteCall :=
  if !configured then ((), [])
  else ((), [])

/-! ## `novajoin/util.py` and `novajoin/join.py` -/

/-- Model of `util.get_fqdn(hostname, project_name=None)` (util.py lines 49-59).
`domain` is the configured/derived domain (`util.get_domain`);
`projectSubdomain` is the `CONF.project_subdomain` option (with the
`NoSuchOptError` fallback behaving like `False`). -/
def getFqdn (domain : String) (projectSubdomain : Bool)
    (hostname : String) (projectName : Option String) : String :=
  if projectSubdomain then
    hostname ++ "." ++ (projectName.getD "None") ++ "." ++ domain
  else
    hostname ++ "." ++ domain

/-- Python truthiness test for the `body.get(...)` values of
`JoinController.create`: `None` and the empty string are falsy. -/
def pyFalsy : Option String → Bool
  | none => true
  | some s => s = ""

/-- Model of `principal.split('/', 1)[1]` (join.py line 231): everything after
the first `'/'`.  (The callers always pass principals containing a
`'/'`; the `IndexError` Python would raise otherwise is outside the
model.) -/
def afterFirstSlash (principal : String) : String :=
  (((principal.toList).dropWhile (fun c => c ≠ '/')).drop 1).asString

/-- The JSON body of the POST request handled by
`JoinController.create` (join.py lines 107-121). -/
structure Body where
  instanceId : Option String
  imageId : Option String
  projectId : Option String
  hostname : Option String
  metadata : List (String × String)

/-- The collaborators and remote-side outcomes `create` interacts with:
the local IPA-client configuration state, the domain configuration
(`util.get_domain` / `CONF.project_subdomain`), the image service, the
nova instance lookup, keystone's project-name lookup, the per-project
`allowed_classes` configuration, the generated OTP (`uuid.uuid4().hex`),
the outcomes of the `host_mod`/`host_add` calls made by `add_host`, the
outcome of the final batch flush, and the JSON decoding of the
`compact_services` metadata value (`json.loads`). -/
structure JoinEnv where
  configured : Bool
  domain : String
  projectSubdomain : Bool
  imageShow : Except Unit (List (String × String))
  instanceExists : Bool
  projectName : Option String
  allowedClasses : List String
  otp : String
  hostMod : CallOutcome
  hostAdd : CallOutcome
  flushOutcome : Except IpaErr Nat
  parseCompact : String → List (String × List String)

/-- The failure modes of `create`: the 400/403 `base.Fault`s it raises
and an IPA exception propagating out of the final
`flush_batch_operation` (which `create` does not catch). -/
inductive CreateFault where
  | badRequest
  | forbidden
  | ipaError (e : IpaErr)
deriving DecidableEq, Repr

/-- Model of `JoinController.handle_services(base_host, services)` (join.py
lines 223-243): for each principal, in order, add its host part as a
subhost if not seen before, add the service if not seen before, and add
the base host to the service, all on the batch queue. -/
def handleServices (batchArgs : List IpaCommand) (baseHost : String)
    (services : List String) : List IpaCommand :=
  (services.foldl
    (fun (acc : List IpaCommand × List String × List String) principal =>
      let (batch, hostsFound, servicesFound) := acc
      let principalHost := afterFirstSlash principal
      let batch := if principalHost ∈ hostsFound then batch
        else addSubhost batch principalHost
      let hostsFound := if principalHost ∈ hostsFound then hostsFound
        else hostsFound ++ [principalHost]
      let batch := if principal ∈ servicesFound then batch
        else addService batch principal
      let servicesFound := if principal ∈ servicesFound then servicesFound
        else servicesFound ++ [principal]
      (serviceAddHost batch principal baseHost, hostsFound, servicesFound))
    (batchArgs, [], [])).1

/-- Model of `JoinController.handle_compact_services(base_host_short,
service_repr_json)` (join.py lines 245-302): for each service name and
each of its networks, form `base_host_short.network` as the subhost and
`service/subhost-fqdn` as the principal, dedup as in
`handle_services`, and queue the same three kinds of batch entries. -/
def handleCompactServices (domain : String) (projectSubdomain : Bool)
    (batchArgs : List IpaCommand) (baseHostShort : String)
    (serviceRepr : List (String × List String)) : List IpaCommand :=
  let baseHost := getFqdn domain projectSubdomain baseHostShort none
  (serviceRepr.foldl
    (fun (acc : List IpaCommand × List String × List String) sn =>
      sn.2.foldl
        (fun (acc : List IpaCommand × List String × List String) network =>
          let (batch, hostsFound, servicesFound) := acc
          let hostShort := baseHostShort ++ "." ++ network
          let principalHost := getFqdn domain projectSubdomain hostShort none
          let principal := sn.1 ++ "/" ++ principalHost
          let batch := if principalHost ∈ hostsFound then batch
            else addSubhost batch principalHost
          let hostsFound := if principalHost ∈ hostsFound then hostsFound
            else hostsFound ++ [principalHost]
          let batch := if principal ∈ servicesFound then batch
            else addService batch principal
          let servicesFound := if principal ∈ servicesFound then servicesFound
            else servicesFound ++ [principal]
          (serviceAddHost batch principal baseHost, hostsFound, servicesFound))
        acc)
    (batchArgs, [], [])).1

/-- Model of `JoinController.create(req, body)` (join.py lines 106-221).
Returns the JSON data dictionary (as an ordered association list) or
the raised fault, together with every remote call performed (by
`add_host` and by the final `flush_batch_operation`).  Mirrors the
source: field-presence checks (400), image lookup (400 on failure),
the two-stage `ipa_enroll` test returning `{}` when enrollment is not
requested, the instance-existence check (400), the hostclass /
allowed-classes check (403), OTP generation, `add_host` with every
exception swallowed (and `ipaotp` removed from the response when
`add_host` returned `False`), then a batch of
`managed_service_*` / `compact_services` registrations flushed at the
end. -/
def create (env : JoinEnv) (body? : Option Body) :
    Except CreateFault (List (String × String)) × List RemoteCall :=
  match body? with
  | none => (.error .badRequest, [])
  | some body =>
    if pyFalsy body.instanceId then (.error .badRequest, [])
    else if pyFalsy body.hostname then (.error .badRequest, [])
    else if pyFalsy body.imageId then (.error .badRequest, [])
    else if pyFalsy body.projectId then (.error .badRequest, [])
    else
      let metadata := body.metadata
      let enroll := (metadata.lookup "ipa_enroll").getD ""
      match env.imageShow with
      | .error _ => (.error .badRequest, [])
      | .ok imageMetadata =>
        if pyLower enroll ≠ "true" ∧
            pyLower ((imageMetadata.lookup "ipa_enroll").getD "") ≠ "true" then
          (.ok [], [])
        else if !env.instanceExists then (.error .badRequest, [])
        else
          let hostclass := metadata.lookup "ipa_hostclass"
          let projectName : Option String :=
            if !pyFalsy hostclass then env.projectName else none
          if !pyFalsy hostclass ∧
              hostclass.getD "" ∉ env.allowedClasses ∧
              "*" ∉ env.allowedClasses then
            (.error .forbidden, [])
          else
            let hostnameShort := body.hostname.getD ""
            let fqdn := getFqdn env.domain env.projectSubdomain
              hostnameShort projectName
            let data0 := [("ipaotp", env.otp), ("hostname", fqdn)]
            let (res, addCalls) := addHost env.configured fqdn env.otp
              metadata imageMetadata env.hostMod env.hostAdd
            let data1 := match res with
              | .ok false => data0.filter (fun kv => kv.1 ≠ "ipaotp")
              | _ => data0
            let batch0 := startBatchOperation
            let managedServices := metadata.filterMap
              (fun kv => if kv.1.startsWith "managed_service_" then some kv.2
                else none)
            let batch1 := if !managedServices.isEmpty then
                handleServices batch0 fqdn managedServices
              else batch0
            let batch2 := match metadata.lookup "compact_services" with
              | some v => handleCompactServices env.domain env.projectSubdomain
                  batch1 hostnameShort (env.parseCompact v)
              | none => batch1
            let (fres, fcalls, _) := flushBatchOperation batch2 env.flushOutcome
            match fres with
            | .error e => (.error (.ipaError e), addCalls ++ fcalls)
            | .ok _ => (.ok data1, addCalls ++ fcalls)

/-! ## Claim theorems -/

/-- C1: For every batch built by `start_batch_operation()` followed by n
calls to `_add_batch_operation(c1..cn)`: if n = 0,
`flush_batch_operation()` returns `None` and performs no remote call;
if n ≥ 1 it performs exactly one remote call, to the `'batch'` command,
whose positional arguments are the n queued commands in exactly the
order they were added. -/
theorem claim_c1_batch_flush
    (cmds : List (String × List Value × List (String × Value)))
    (outcome : Except IpaErr Nat) :
    (cmds = [] →
      flushBatchOperation (buildBatch cmds) outcome = (.ok none, [], [])) ∧
    (cmds ≠ [] →
      (flushBatchOperation (buildBatch cmds) outcome).2.1 =
        [RemoteCall.batch (cmds.map entryOf) versionKw]) := by
  constructor
  · rintro rfl
    rfl
  · intro hne
    rw [show buildBatch cmds = cmds.map entryOf from buildBatch_eq cmds]
    have hempty : (cmds.map entryOf).isEmpty = false := by
      cases cmds with
      | nil => exact absurd rfl hne
      | cons c rest => rfl
    unfold flushBatchOperation
    rw [hempty]
    cases outcome <;> rfl

/-- Witness for C1 at the batches `[]` and `[x, y]`. -/
theorem claim_c1_batch_flush_witness :
    flushBatchOperation (buildBatch []) (.ok 7) = (.ok none, [], []) ∧
    (flushBatchOperation
        (buildBatch [("x", [], []), ("y", [], [])]) (.ok 7)).2.1 =
      [RemoteCall.batch [⟨"x", [], []⟩, ⟨"y", [], []⟩] versionKw] :=
  ⟨(claim_c1_batch_flush [] (.ok 7)).1 rfl,
   (claim_c1_batch_flush [("x", [], []), ("y", [], [])] (.ok 7)).2
      (by simp)⟩

/-- C7 counterexample: after a successful `flush_batch_operation` on a
non-empty queue the queue is NOT empty again — the source never clears
`self.batch_args` — and a second flush without an intervening
`start_batch_operation` performs another remote call resubmitting the
same commands. -/
theorem claim_c7_counterexample :
    (flushBatchOperation (buildBatch [("host_add", [Value.str "x"], [])])
        (.ok 0)).2.2 = [⟨"host_add", [Value.str "x"], []⟩] ∧
    ([⟨"host_add", [Value.str "x"], []⟩] : List IpaCommand) ≠ [] ∧
    (flushBatchOperation
        ((flushBatchOperation (buildBatch [("host_add", [Value.str "x"], [])])
            (.ok 0)).2.2) (.ok 0)).2.1 =
      [RemoteCall.batch [⟨"host_add", [Value.str "x"], []⟩] versionKw] := by
  refine ⟨rfl, by simp, rfl⟩

/-- C7 amended: if `flush_batch_operation` raises, the queued commands
remain in the queue unchanged — but the same holds when it returns
successfully: flushing never clears the queue (so a second flush
without `start_batch_operation` resubmits the same commands); only
`start_batch_operation` resets the queue to empty. -/
theorem claim_c7_amended (s : List IpaCommand) (outcome : Except IpaErr Nat) :
    (flushBatchOperation s outcome).2.2 = s ∧
    startBatchOperation = ([] : List IpaCommand) := by
  refine ⟨?_, rfl⟩
  unfold flushBatchOperation
  split
  · rfl
  · cases outcome <;> rfl

/-- C5 counterexample: with initial delay d = 3, the delay applied
after k = 9 consecutive failures is 1536, which differs from
min(3·2⁹, 1024) = 1024 and exceeds the 1024 cap. -/
theorem claim_c5_counterexample :
    backoffIter 3 9 = 1536 ∧
    backoffIter 3 9 ≠ min (3 * 2 ^ 9) 1024 ∧
    ¬ backoffIter 3 9 ≤ 1024 := by decide

/-- C5 amended: the delay applied after k consecutive failures equals
min(d·2ᵏ, 1024) when the initial delay d is a power of two at most the
cap (d = 2ʲ, j ≤ 10); for an arbitrary initial delay at most the cap
the applied delay never exceeds 2046 (< 2× the cap), because doubling
stops as soon as the delay reaches 1024, but on a non-power-of-two
trajectory it can land strictly above 1024. -/
theorem claim_c5_amended (j k d : Nat) :
    (j ≤ 10 → backoffIter (2 ^ j) k = min (2 ^ j * 2 ^ k) 1024) ∧
    (d ≤ 1024 → backoffIter d k ≤ 2046) := by
  constructor
  · intro hj
    induction k with
    | zero =>
      have h10 : (2 : Nat) ^ j ≤ 2 ^ 10 := Nat.pow_le_pow_right (by norm_num) hj
      simp only [backoffIter, pow_zero, mul_one]
      omega
    | succ k ih =>
      have hstep : backoffIter (2 ^ j) (k + 1) = stepBackoff (backoffIter (2 ^ j) k) := rfl
      rw [hstep, ih]
      by_cases hlt : 2 ^ j * 2 ^ k < 1024
      · have hmin : min (2 ^ j * 2 ^ k) 1024 = 2 ^ j * 2 ^ k :=
          min_eq_left (le_of_lt hlt)
        rw [hmin]
        have hpow : (2 : Nat) ^ j * 2 ^ k = 2 ^ (j + k) := (pow_add 2 j k).symm
        have hjk : j + k < 10 := by
          have : (2 : Nat) ^ (j + k) < 2 ^ 10 := by
            rw [← hpow]; exact hlt
          exact (Nat.pow_lt_pow_iff_right (by norm_num)).mp this
        have hnext : (2 : Nat) ^ j * 2 ^ (k + 1) ≤ 1024 := by
          have : (2 : Nat) ^ (j + k + 1) ≤ 2 ^ 10 :=
            Nat.pow_le_pow_right (by norm_num) (by omega)
          calc (2 : Nat) ^ j * 2 ^ (k + 1) = 2 ^ (j + (k + 1)) := (pow_add 2 j (k + 1)).symm
            _ ≤ 2 ^ 10 := by rw [show j + (k + 1) = j + k + 1 by omega]; exact this
            _ = 1024 := by norm_num
        rw [stepBackoff, if_pos hlt, min_eq_left hnext]
        ring
      · have hge : 1024 ≤ 2 ^ j * 2 ^ k := le_of_not_lt hlt
        have hmin : min (2 ^ j * 2 ^ k) 1024 = 1024 := min_eq_right hge
        rw [hmin, stepBackoff, if_neg (by omega)]
        have : 1024 ≤ 2 ^ j * 2 ^ (k + 1) := by
          calc (1024 : Nat) ≤ 2 ^ j * 2 ^ k := hge
            _ ≤ 2 ^ j * 2 ^ (k + 1) :=
              Nat.mul_le_mul_left _ (Nat.pow_le_pow_right (by norm_num) (by omega))
        omega
  · intro hd
    induction k with
    | zero => simpa [backoffIter] using by omega
    | succ k ih =>
      have hstep : backoffIter d (k + 1) = stepBackoff (backoffIter d k) := rfl
      rw [hstep, stepBackoff]
      split <;> omega

/-- Witness for C5 amended at j = 1, k = 12 and d = 3. -/
theorem claim_c5_amended_witness :
    backoffIter (2 ^ 1) 12 = min (2 ^ 1 * 2 ^ 12) 1024 ∧
    backoffIter 3 12 ≤ 2046 :=
  ⟨(claim_c5_amended 1 12 3).1 (by norm_num),
   (claim_c5_amended 1 12 3).2 (by norm_num)⟩

/-- C6: with IPA configured, `add_host` returns True for a newly
enrolled host (host_mod NotFound, host_add succeeds); a second
`add_host` for the same hostname returns True via the host_mod update
path; DuplicateEntry / ValidationError on the creation (host_add) path
are swallowed and never reach the caller; a ValidationError on the
OTP-update (host_mod) path makes `add_host` return False. -/
theorem claim_c6_add_host (h otp otp2 : String)
    (md imd : List (String × String)) (ha : CallOutcome) :
    (addHost true h otp md imd (.error .notFound) (.ok ())).1 = .ok true ∧
    (addHost true h otp2 md imd (.ok ()) ha).1 = .ok true ∧
    (addHost true h otp2 md imd (.error .notFound) (.error .duplicateEntry)).1
      = .ok true ∧
    (addHost true h otp2 md imd (.error .notFound) (.error .validationError)).1
      = .ok true ∧
    (addHost true h otp2 md imd (.error .notFound) ha).1
      ≠ .error .duplicateEntry ∧
    (addHost true h otp md imd (.error .validationError) ha).1 = .ok false := by
  refine ⟨rfl, rfl, rfl, rfl, ?_, rfl⟩
  cases ha with
  | ok u => simp [addHost]
  | error e => cases e <;> simp [addHost]

/-- C10: for every hostname and floating IP and in every configuration
state, `remove_ip` performs no directory RPC and returns `None`, while
`add_ip` (configured, successful) does issue a `dnsrecord_add` call. -/
theorem claim_c10_remove_ip (configured : Bool)
    (domain hostname floatingIp : String) :
    removeIp configured hostname floatingIp = ((), []) ∧
    (addIp true domain hostname floatingIp (.ok ())).2 =
      [RemoteCall.single
        ⟨"dnsrecord_add", [.dnsName (domain ++ "."), .dnsName hostname],
          [("a_part_ip_address", .str floatingIp)] ++ versionKw⟩] := by
  exact ⟨by cases configured <;> rfl, rfl⟩

/-- C3 counterexample: code 4001 ("not found") has no entry at all in
`ipaerror2exception`, and for verb `host_del` the translation does NOT
treat the response as success: it yields `IPAUnknownError`, which
`_call_and_handle_error` raises. -/
theorem claim_c3_counterexample :
    ipaerror2exception.lookup 4001 = none ∧
    ipaErrorToException (some 4001) "host_del" = some HookExc.IPAUnknownError := by
  decide

/-- C3 amended: an RPC error response whose numeric code has no entry
at all in the static table is NOT ignored — the inner
`dict.get(methtype, IPAUnknownError)` default makes the translation
yield `IPAUnknownError`, which is raised; in particular code 4001
('not found') with verb 'host_del' raises `IPAUnknownError`.  Only a
`None` response error (no error at all) yields success here; silent
ignoring happens only for explicit `None` entries of the table. -/
theorem claim_c3_amended (code : Nat) (method : String) :
    (code ≠ 3009 → code ≠ 4202 → code ≠ 4019 → code ≠ 4002 →
      ipaErrorToException (some code) method = some HookExc.IPAUnknownError) ∧
    ipaErrorToException none method = none := by
  constructor
  · intro h1 h2 h3 h4
    have b1 : (code == 3009) = false := beq_eq_false_iff_ne.mpr h1
    have b2 : (code == 4202) = false := beq_eq_false_iff_ne.mpr h2
    have b3 : (code == 4019) = false := beq_eq_false_iff_ne.mpr h3
    have b4 : (code == 4002) = false := beq_eq_false_iff_ne.mpr h4
    simp [ipaErrorToException, ipaerror2exception, IPA_INVALID_DATA,
      IPA_NO_CHANGES, IPA_NO_DNS_RECORD, IPA_DUPLICATE, List.lookup,
      b1, b2, b3, b4]
  · rfl

/-- Witness for C3 amended at code 4001, method "host_del". -/
theorem claim_c3_amended_witness :
    ipaErrorToException (some 4001) "host_del" = some HookExc.IPAUnknownError ∧
    ipaErrorToException none "host_del" = none :=
  ⟨(claim_c3_amended 4001 "host_del").1 (by decide) (by decide) (by decide)
      (by decide),
   (claim_c3_amended 4001 "host_del").2⟩

/-- C4: the object type used in error translation is the verb's prefix
before the first underscore ('host_add' yields 'host', and in general
`methtype (p ++ '_' ++ rest) = p` when `p` has no underscore); a
(code, object-type) pair mapped to a concrete error class is raised —
in particular (4002, 'host_add') yields `IPADuplicateEntry` — while a
pair mapped to the ignore marker `None`, such as (4202, 'host'), is
treated as success and raises nothing. -/
theorem claim_c4_error_table :
    methtype "host_add" = "host" ∧
    (∀ p rest : List Char, '_' ∉ p →
      methtype (p ++ '_' :: rest).asString = p.asString) ∧
    ipaErrorToException (some 4002) "host_add" = some HookExc.IPADuplicateEntry ∧
    ipaErrorToException (some 4202) "host_mod" = none ∧
    (∀ (code : Nat) (method : String) (exc : HookExc),
      ((ipaerror2exception.lookup code).getD []).lookup (methtype method)
          = some (some exc) →
      ipaErrorToException (some code) method = some exc) ∧
    (∀ (code : Nat) (method : String),
      ((ipaerror2exception.lookup code).getD []).lookup (methtype method)
          = some none →
      ipaErrorToException (some code) method = none) := by
  refine ⟨by decide, ?_, by decide, by decide, ?_, ?_⟩
  · intro p rest hp
    have : (p ++ '_' :: rest).asString.toList = p ++ '_' :: rest := rfl
    rw [methtype, this, pySplitC_append_sep '_' p rest hp]
    rfl
  · intro code method exc hlook
    rw [ipaErrorToException, hlook]
    rfl
  · intro code method hlook
    rw [ipaErrorToException, hlook]
    rfl

/-- Witness for C4 at verb "host_add" (prefix "host"), entry
(3009, dnsrecord) → `IPAInvalidData` raised, entry (4019, host) →
ignored. -/
theorem claim_c4_error_table_witness :
    methtype ("host".toList ++ '_' :: "add".toList).asString =
      "host".toList.asString ∧
    ipaErrorToException (some 3009) "dnsrecord_del" =
      some HookExc.IPAInvalidData ∧
    ipaErrorToException (some 4019) "host_add" = none :=
  ⟨claim_c4_error_table.2.1 "host".toList "add".toList (by decide),
   claim_c4_error_table.2.2.2.2.1 3009 "dnsrecord_del" HookExc.IPAInvalidData
      (by decide),
   claim_c4_error_table.2.2.2.2.2 4019 "host_add" (by decide)⟩

theorem stepBackoff_pos {b : Nat} (h : 0 < b) : 0 < stepBackoff b := by
  unfold stepBackoff
  split <;> omega

theorem getConnectionFuel_credFail_pos (ntries : Nat) :
    ∀ fuel tries i b, 0 < b →
      getConnectionFuel everCredFail ntries fuel tries i b = none := by
  intro fuel
  induction fuel with
  | zero => intro tries i b _; rfl
  | succ f ih =>
    intro tries i b hb
    unfold getConnectionFuel
    rw [if_pos (Or.inr hb)]
    show getConnectionFuel everCredFail ntries f (tries + 1) (i + 1)
        (if 0 < tries ∧ 0 < b then stepBackoff b else b) = none
    apply ih
    split
    · exact stepBackoff_pos hb
    · exact hb

/-- C2 counterexample: with an active backoff policy (`backoff = 2`,
the value the notification listener passes to `IPAClient`) and the
default retry budget `connect_retries = 1`, the reconnect loop of
`__get_connection` never terminates when every connection attempt fails
with a credential error — the guard `(tries <= self.ntries) or
(self.backoff > 0)` stays true forever, so the attempt counter is not
bounded by the retry budget and no CommunicationFailure is ever
raised. -/
theorem claim_c2_counterexample :
    getConnectionDiverges everCredFail 1 0 0 2 :=
  fun fuel => getConnectionFuel_credFail_pos 1 fuel 0 0 2 (by omega)

theorem connectRetriesLoop_breaks (oracle : Nat → PostOutcome) (S : Nat)
    (hS : statusOf (oracle S) ≠ 401) :
    ∀ ntries i, (∀ j, i ≤ j → j < S → statusOf (oracle j) = 401) →
      i ≤ S → S - i ≤ ntries →
      connectRetriesLoop oracle ntries i = .ok S := by
  intro ntries
  induction ntries with
  | zero =>
    intro i h401 hiS hcnt
    have hiS' : i = S := by omega
    subst hiS'
    unfold connectRetriesLoop
    rw [if_neg hS]
  | succ n ih =>
    intro i h401 hiS hcnt
    by_cases hi : statusOf (oracle i) = 401
    · have hiS' : i ≠ S := fun he => hS (he ▸ hi)
      have hilt : i < S := by omega
      unfold connectRetriesLoop
      rw [if_pos hi]
      exact ih (i + 1) (fun j hj hjS => h401 j (by omega) hjS) (by omega)
        (by omega)
    · have hiS' : i = S := by
        by_contra hne
        exact hi (h401 i le_rfl (by omega))
      subst hiS'
      unfold connectRetriesLoop
      rw [if_neg hi]

theorem connectRetriesLoop_everAuthFail :
    ∀ ntries i, connectRetriesLoop everAuthFail ntries i =
      .error .IPACommunicationFailure := by
  intro ntries
  induction ntries with
  | zero => intro i; rfl
  | succ n ih =>
    intro i
    unfold connectRetriesLoop
    rw [if_pos (show statusOf (everAuthFail i) = 401 from rfl)]
    exact ih (i + 1)

theorem callIpaFuel_everCredFail (reconnectBackoff : Nat → Nat) :
    ∀ fuel i b, callIpaFuel everCredFail reconnectBackoff fuel i b = none := by
  intro fuel
  induction fuel with
  | zero => intro i b; rfl
  | succ f ih => intro i b; exact ih (i + 1) (reconnectBackoff b)

/-- C2 amended: in the hook variant (`_call_and_handle_error`), if the
first N iterations fail with a credential (`IPAAuthError`/401) error
and attempt N succeeds with N at most the `connect_retries` budget, the
invocation breaks out of the loop at attempt N — the request is
dispatched successfully exactly once — while under persistent
credential failure the loop raises `IPACommunicationFailure` after
exhausting the budget.  The ipa.py service variant has no such bound:
under persistent credential failure its `_call_ipa` dispatch loop never
terminates (for every fuel it is still running), whatever
`__get_connection` does to the backoff state. -/
theorem claim_c2_amended (N budget : Nat) (h : N ≤ budget) :
    connectRetriesLoop (failThenOk N) budget 0 = .ok N ∧
    ((List.range (N + 1)).filter
        (fun i => statusOf (failThenOk N i) != 401)).length = 1 ∧
    (∀ ntries i, connectRetriesLoop everAuthFail ntries i =
      .error .IPACommunicationFailure) ∧
    (∀ reconnectBackoff fuel i b,
      callIpaFuel everCredFail reconnectBackoff fuel i b = none) := by
  refine ⟨?_, ?_, connectRetriesLoop_everAuthFail, ?_⟩
  · apply connectRetriesLoop_breaks
    · simp [failThenOk, statusOf]
    · intro j _ hjN
      simp [failThenOk, statusOf, hjN]
    · omega
    · omega
  · rw [List.range_succ, List.filter_append]
    have hnil : (List.range N).filter
        (fun i => statusOf (failThenOk N i) != 401) = [] := by
      rw [List.filter_eq_nil_iff]
      intro a ha
      have haN : a < N := List.mem_range.mp ha
      simp [failThenOk, statusOf, haN]
    rw [hnil]
    simp [failThenOk, statusOf]
  · exact fun r => callIpaFuel_everCredFail r

/-- Witness for C2 amended at N = 1, budget = 2. -/
theorem claim_c2_amended_witness :
    connectRetriesLoop (failThenOk 1) 2 0 = .ok 1 ∧
    ((List.range 2).filter
        (fun i => statusOf (failThenOk 1 i) != 401)).length = 1 :=
  ⟨(claim_c2_amended 1 2 (by omega)).1, (claim_c2_amended 1 2 (by omega)).2.1⟩

/-- C8 counterexample: the input `a@b@c/h` contains more than one `@`
but `split_principal` does NOT raise the malformed-principal error — it
returns `('a@b@c', 'h', <configured realm>)`, because only the part
after the `/` is split on `@`. -/
theorem claim_c8_counterexample :
    ("a@b@c/h".toList.count '@' = 2) ∧
    splitPrincipal "REALM".toList "a@b@c/h".toList =
      .ok ("a@b@c".toList, "h".toList, "REALM".toList) :=
  ⟨by decide, rfl⟩

/-- C8 amended: for every principal `service/host@REALM` with non-empty
service, where `/` occurs only as the separator, `@` does not occur in
host or realm, and the realm uppercases to the configured realm,
`split_principal` returns `(service, host lowercased, realm
uppercased)` — so reassembling `service/hostname@realm` from the tuple
gives the normalized form of the input.  An input whose number of `/`
is not exactly one raises the malformed-principal error, as does an
input with more than one `@` in the part after the `/`; extra `@`
characters before the `/` are not rejected (they end up inside the
service component). -/
theorem claim_c8_amended (envRealm : List Char) :
    (∀ s h r : List Char, s ≠ [] → '/' ∉ s → '/' ∉ h → '/' ∉ r →
      '@' ∉ h → '@' ∉ r → r.map Char.toUpper = envRealm →
      splitPrincipal envRealm (s ++ '/' :: (h ++ '@' :: r)) =
        .ok (s, h.map Char.toLower, r.map Char.toUpper)) ∧
    (∀ p : List Char, p.count '/' ≠ 1 →
      splitPrincipal envRealm p = .error (.malformed "missing service")) ∧
    (∀ s rest : List Char, s ≠ [] → '/' ∉ s → '/' ∉ rest →
      2 ≤ rest.count '@' →
      splitPrincipal envRealm (s ++ '/' :: rest) =
        .error (.malformed "unable to determine realm")) := by
  refine ⟨?_, ?_, ?_⟩
  · intro s h r hs hslash_s hslash_h hslash_r hat_h hat_r hrealm
    have hslash_rest : '/' ∉ h ++ '@' :: r := by
      simp only [List.mem_append, List.mem_cons, not_or]
      exact ⟨hslash_h, by decide, hslash_r⟩
    have hsp : pySplitC '/' (s ++ '/' :: (h ++ '@' :: r)) =
        s :: pySplitC '/' (h ++ '@' :: r) :=
      pySplitC_append_sep '/' s (h ++ '@' :: r) hslash_s
    have hsp2 : pySplitC '/' (h ++ '@' :: r) = [h ++ '@' :: r] :=
      pySplitC_no_sep '/' (h ++ '@' :: r) hslash_rest
    have hsr : pySplitC '@' (h ++ '@' :: r) = h :: pySplitC '@' r :=
      pySplitC_append_sep '@' h r hat_h
    have hsr2 : pySplitC '@' r = [r] := pySplitC_no_sep '@' r hat_r
    unfold splitPrincipal
    rw [hsp, hsp2]
    simp only [List.length_cons, List.length_nil]
    rw [if_neg (by omega)]
    have hserv : (s :: [h ++ '@' :: r]).headD [] = s := rfl
    rw [hserv, if_neg (by simpa [List.length_eq_zero] using hs)]
    have hgetd : (s :: [h ++ '@' :: r]).getD 1 [] = h ++ '@' :: r := rfl
    rw [hgetd, hsr, hsr2]
    rw [if_neg (show ¬ ([h, r] : List (List Char)).length > 2 by simp)]
    rw [if_pos (show ([h, r] : List (List Char)).length = 2 from rfl)]
    have hhost : ((h :: [r]).headD []).map Char.toLower = h.map Char.toLower :=
      rfl
    have hrealm' : ((h :: [r]).getD 1 []).map Char.toUpper =
        r.map Char.toUpper := rfl
    rw [hhost, hrealm', if_neg (by rw [hrealm]; exact fun hne => hne rfl)]
  · intro p hcount
    have hlen : (pySplitC '/' p).length ≠ 2 := by
      rw [pySplitC_length]
      omega
    unfold splitPrincipal
    rw [if_pos hlen]
  · intro s rest hs hslash_s hslash_rest hat
    have hsp : pySplitC '/' (s ++ '/' :: rest) = s :: pySplitC '/' rest :=
      pySplitC_append_sep '/' s rest hslash_s
    have hsp2 : pySplitC '/' rest = [rest] :=
      pySplitC_no_sep '/' rest hslash_rest
    unfold splitPrincipal
    rw [hsp, hsp2]
    simp only [List.length_cons, List.length_nil]
    rw [if_neg (by omega)]
    have hserv : (s :: [rest]).headD [] = s := rfl
    rw [hserv, if_neg (by simpa [List.length_eq_zero] using hs)]
    have hgetd : (s :: [rest]).getD 1 [] = rest := rfl
    rw [hgetd]
    have hlen : 2 < (pySplitC '@' rest).length := by
      rw [pySplitC_length]
      omega
    rw [if_pos hlen]

/-- Witness for C8 amended: the well-formed principal
`svc/HoSt@realm` splits into `(svc, host, REALM)`; `svchost` (no `/`)
and `a/b@c@d` (two `@` after the `/`) raise the malformed error. -/
theorem claim_c8_amended_witness :
    splitPrincipal "REALM".toList
        ("svc".toList ++ '/' :: ("HoSt".toList ++ '@' :: "realm".toList)) =
      .ok ("svc".toList, "host".toList, "REALM".toList) ∧
    splitPrincipal "REALM".toList "svchost".toList =
      .error (.malformed "missing service") ∧
    splitPrincipal "REALM".toList ("a".toList ++ '/' :: "b@c@d".toList) =
      .error (.malformed "unable to determine realm") :=
  ⟨by
    have h := (claim_c8_amended "REALM".toList).1 "svc".toList "HoSt".toList
      "realm".toList (by decide) (by decide) (by decide) (by decide)
      (by decide) (by decide) (by decide)
    simpa using h,
   (claim_c8_amended "REALM".toList).2.1 "svchost".toList (by decide),
   (claim_c8_amended "REALM".toList).2.2 "a".toList "b@c@d".toList
      (by decide) (by decide) (by decide) (by decide)⟩

/-- The environment of the C9 end-to-end scenario: directory client
not configured locally, domain `test`, image found with no properties,
nova instance exists, no project subdomain, OTP `otp1`. -/
def scenarioEnv : JoinEnv :=
  { configured := false, domain := "test", projectSubdomain := false,
    imageShow := .ok [], instanceExists := true, projectName := none,
    allowedClasses := [], otp := "otp1", hostMod := .error .notFound,
    hostAdd := .ok (), flushOutcome := .ok 0, parseCompact := fun _ => [] }

/-- The POST body of the C9 end-to-end scenario. -/
def scenarioBody : Body :=
  { instanceId := some "i1", imageId := some "img1", projectId := some "p1",
    hostname := some "test", metadata := [("ipa_enroll", "true")] }

/-- C9 counterexample: the POST create request with
`metadata.ipa_enroll = "true"` against a not-configured directory
client does NOT yield `{}` — it yields
`{"hostname": "test.<domain>"}` (the OTP key deleted because
`add_host` returned `False`, the hostname kept), though indeed with no
remote calls attempted. -/
theorem claim_c9_counterexample :
    create scenarioEnv (some scenarioBody) =
      (.ok [("hostname", "test.test")], []) ∧
    create scenarioEnv (some scenarioBody) ≠ (.ok [], []) := by
  constructor
  · rfl
  · intro hcontra
    rw [show create scenarioEnv (some scenarioBody) =
        (.ok [("hostname", "test.test")], []) from rfl] at hcontra
    simp at hcontra

/-- C9 amended: when `configured()` is false, `add_host` returns
`False`, `delete_host`, `add_ip` and `remove_ip` return `None`, all
with no remote call; `add_subhost`/`add_service` never perform a remote
call themselves (they only append to the batch queue, without a
configured check); flushing an *empty* batch performs no remote call —
but `flush_batch_operation` has no configured check, so flushing a
non-empty batch issues a remote call even when unconfigured.  The POST
create scenario yields HTTP 200 with body
`{"hostname": "test.test"}` — the hostname key, without an OTP — and
no remote calls attempted. -/
theorem claim_c9_amended (h otp dom fip : String)
    (md imd : List (String × String)) (hm ha hd dd o : CallOutcome)
    (fo : Except IpaErr Nat) (batch : List IpaCommand) :
    addHost false h otp md imd hm ha = (.ok false, []) ∧
    deleteHost false h hd dd = (.ok (), []) ∧
    addIp false dom h fip o = (.ok (), []) ∧
    removeIp false h fip = ((), []) ∧
    flushBatchOperation [] fo = (.ok none, [], []) ∧
    (flushBatchOperation batch fo).2.1 =
      (if batch.isEmpty then []
        else [RemoteCall.batch batch versionKw]) ∧
    create scenarioEnv (some scenarioBody) =
      (.ok [("hostname", "test.test")], []) := by
  refine ⟨rfl, rfl, rfl, rfl, rfl, ?_, rfl⟩
  unfold flushBatchOperation
  split
  · rfl
  · cases fo <;> rfl

end Novajoin
